import Mathlib

/-!
Shallow embedding of the parcel-measurement repository
(`src/api/measure-parcel.ts` and the single-file React app in
`src/unnamed/part_000`).

Numbers: JavaScript numeric values are modelled as `ℚ` where the code only
adds, subtracts, takes `min`/`max` and compares (the geometry editor, the
locker engine, the HTTP handler), and as `ℝ` where a square root is taken
(`dist`, the pixel-per-mm scale, and the measurement extraction that divides
by that scale).
-/

namespace Parcel

/-- `interface Pt { x: number; y: number }` (part_000 line 30). -/
structure Pt where
  x : ℚ
  y : ℚ
deriving DecidableEq, Repr

/-- `type Rect = { x:number; y:number; w:number; h:number }` (part_000 line 314). -/
structure Rect where
  x : ℚ
  y : ℚ
  w : ℚ
  h : ℚ
deriving DecidableEq, Repr

/-- `type ImgSize = { w:number; h:number }` (part_000 line 313). -/
structure ImgSize where
  w : ℚ
  h : ℚ
deriving DecidableEq, Repr

/-- `function clamp(n, min, max) { return Math.max(min, Math.min(max, n)); }`
(part_000 line 33). -/
def clamp (n lo hi : ℚ) : ℚ := max lo (min hi n)

/-- `function dist(a, b) { const dx = a.x - b.x, dy = a.y - b.y; return Math.hypot(dx, dy); }`
(part_000 line 34). `Math.hypot dx dy = √(dx² + dy²)`. -/
noncomputable def dist (a b : Pt) : ℝ :=
  Real.sqrt (((a.x - b.x : ℚ) : ℝ) ^ 2 + ((a.y - b.y : ℚ) : ℝ) ^ 2)

/-- One entry of the `LOCKER_SIZES` catalogue
(part_000 lines 23-27, measure-parcel.ts lines 4-8). -/
structure LockerSpec where
  length : ℚ
  width : ℚ
  height : ℚ
  label : String
deriving DecidableEq, Repr

namespace Ui

/-- `LOCKER_SIZES.small` of part_000 line 24. -/
def LOCKER_SIZES_small : LockerSpec := ⟨385, 500, 110.2, "SMALL"⟩

/-- `LOCKER_SIZES.medium` of part_000 line 25. -/
def LOCKER_SIZES_medium : LockerSpec := ⟨385, 500, 222.2, "MEDIUM"⟩

/-- `LOCKER_SIZES.large` of part_000 line 26. -/
def LOCKER_SIZES_large : LockerSpec := ⟨385, 500, 301, "LARGE"⟩

/-- `type LockerKey = keyof typeof LOCKER_SIZES` (part_000 line 382). -/
inductive LockerKey where
  | small
  | medium
  | large
deriving DecidableEq, Repr

/-- `type RecommendResult = { label: string; color: string; sizeKey: LockerKey | null }`
(part_000 line 383). -/
structure RecommendResult where
  label : String
  color : String
  sizeKey : Option LockerKey
deriving DecidableEq, Repr

/-- `recommendLocker` of the React app (part_000 lines 384-398): footprint
check with `a = min`, `b = max` against `385 × 500`, then the
`for (const key of ordered)` scan over `["small","medium","large"]`
returning the first tier with `htMM <= spec.height`; the scan is rendered
as `List.find?` over the ordered tier list. -/
def recommendLocker (lenMM widMM htMM : ℚ) : RecommendResult :=
  let a := min lenMM widMM
  let b := max lenMM widMM
  let footprintFits := a ≤ LOCKER_SIZES_small.length ∧ b ≤ LOCKER_SIZES_small.width
  if ¬ footprintFits then ⟨"Too large for footprint", "#ff6b6b", none⟩
  else
    match ([(LockerKey.small, LOCKER_SIZES_small),
            (LockerKey.medium, LOCKER_SIZES_medium),
            (LockerKey.large, LOCKER_SIZES_large)].find?
            (fun p => decide (htMM ≤ p.2.height))) with
    | some p => ⟨p.2.label, "#36d399", some p.1⟩
    | none => ⟨"Height exceeds LARGE", "#ffb020", none⟩

end Ui

namespace Api

/-- `LOCKER_SIZES.small` of measure-parcel.ts line 5. -/
def LOCKER_SIZES_small : LockerSpec := ⟨385, 500, 110.2, "SMALL"⟩

/-- `LOCKER_SIZES.medium` of measure-parcel.ts line 6. -/
def LOCKER_SIZES_medium : LockerSpec := ⟨385, 500, 222.2, "MEDIUM"⟩

/-- `LOCKER_SIZES.large` of measure-parcel.ts line 7. -/
def LOCKER_SIZES_large : LockerSpec := ⟨385, 500, 301, "LARGE"⟩

/-- `interface ParcelMeasurements` (measure-parcel.ts lines 12-16). -/
structure ParcelMeasurements where
  length_mm : ℚ
  width_mm : ℚ
  height_mm : ℚ
deriving DecidableEq, Repr

/-- `interface LockerRecommendation` (measure-parcel.ts lines 18-28).
The `reason` field is a presentational string built with `toFixed` number
formatting; it is not modelled. -/
structure LockerRecommendation where
  size : String
  fits : Bool
  dimensions : ParcelMeasurements
  lockerSpecs : ParcelMeasurements
deriving DecidableEq, Repr

/-- `recommendLocker` of measure-parcel.ts lines 30-67: the same footprint
check as the UI copy, then the `for (const key of ordered)` scan rendered as
`List.find?` over the ordered tier list, `TOO_TALL` when the scan fails. -/
def recommendLocker (lenMM widMM htMM : ℚ) : LockerRecommendation :=
  let a := min lenMM widMM
  let b := max lenMM widMM
  let footprintFits := a ≤ LOCKER_SIZES_small.length ∧ b ≤ LOCKER_SIZES_small.width
  if ¬ footprintFits then
    ⟨"TOO_LARGE", false, ⟨lenMM, widMM, htMM⟩,
      ⟨LOCKER_SIZES_small.length, LOCKER_SIZES_small.width, LOCKER_SIZES_small.height⟩⟩
  else
    match ([LOCKER_SIZES_small, LOCKER_SIZES_medium, LOCKER_SIZES_large].find?
            (fun spec => decide (htMM ≤ spec.height))) with
    | some spec =>
        ⟨spec.label, true, ⟨lenMM, widMM, htMM⟩, ⟨spec.length, spec.width, spec.height⟩⟩
    | none =>
        ⟨"TOO_TALL", false, ⟨lenMM, widMM, htMM⟩,
          ⟨LOCKER_SIZES_large.length, LOCKER_SIZES_large.width, LOCKER_SIZES_large.height⟩⟩

end Api

/-!
## Interactive geometry editor (part_000, `DraggableRect`)
-/

/-- `setCorner` of `DraggableRect` (part_000 lines 182-190). The source's
corner indices `ix, iy : 0|1` are modelled with `false` for `0` and `true`
for `1`; `r` is the component's current `rect` prop and `p` the dragged
pointer position in image space. -/
def setCorner (r : Rect) (ix iy : Bool) (p : Pt) : Rect :=
  let nx := if ix = false then min p.x (r.x + r.w) else max p.x r.x
  let ny := if iy = false then min p.y (r.y + r.h) else max p.y r.y
  let left := if ix = false then nx else r.x
  let top := if iy = false then ny else r.y
  let right := if ix = false then r.x + r.w else nx
  let bottom := if iy = false then r.y + r.h else ny
  ⟨left, top, right - left, bottom - top⟩

/-- `onBodyMove` of `DraggableRect` (part_000 lines 200-213). `rectOrigin`
and `dragOrigin` are the rect position and pointer position captured at
drag start, `pt` the current pointer position, `w`/`h` the rect's current
size (unchanged during a body drag), `bounds` the optional `bounds` prop
(`if (bounds)` guards the clamping). -/
def onBodyMove (rectOrigin dragOrigin pt : Pt) (w h : ℚ)
    (bounds : Option ImgSize) : Rect :=
  let dx := pt.x - dragOrigin.x
  let dy := pt.y - dragOrigin.y
  let nx := rectOrigin.x + dx
  let ny := rectOrigin.y + dy
  match bounds with
  | some b => ⟨clamp nx 0 (max 0 (b.w - w)), clamp ny 0 (max 0 (b.h - h)), w, h⟩
  | none => ⟨nx, ny, w, h⟩

namespace Ui

/-!
## Scale resolution and measurement extraction (part_000, `PhotoMeasure`)
-/

/-- `topPxPerMM` (part_000 lines 362-365):
`dpx > 0 && topCalReal > 0 ? (dpx / topCalReal) : 0` with
`dpx = dist(topCalA, topCalB)`. `sidePxPerMM` (lines 367-370) is the same
function of its own inputs, so only one definition is given. -/
noncomputable def topPxPerMM (topCalA topCalB : Pt) (topCalReal : ℚ) : ℝ :=
  let dpx := dist topCalA topCalB
  if 0 < dpx ∧ 0 < topCalReal then dpx / (topCalReal : ℝ) else 0

/-- `const topWmm = topRect.w / (topPxPerMM || 1)` (part_000 line 373);
the JavaScript `|| 1` falls back to `1` when the scale is `0`. -/
noncomputable def topWmm (topRect : Rect) (pxPerMM : ℝ) : ℝ :=
  (topRect.w : ℝ) / (if pxPerMM = 0 then 1 else pxPerMM)

/-- `const topHmm = topRect.h / (topPxPerMM || 1)` (part_000 line 374). -/
noncomputable def topHmm (topRect : Rect) (pxPerMM : ℝ) : ℝ :=
  (topRect.h : ℝ) / (if pxPerMM = 0 then 1 else pxPerMM)

/-- `const lengthMM = Math.max(topWmm, topHmm)` (part_000 line 375). -/
noncomputable def lengthMM (topRect : Rect) (pxPerMM : ℝ) : ℝ :=
  max (topWmm topRect pxPerMM) (topHmm topRect pxPerMM)

/-- `const widthMM = Math.min(topWmm, topHmm)` (part_000 line 376). -/
noncomputable def widthMM (topRect : Rect) (pxPerMM : ℝ) : ℝ :=
  min (topWmm topRect pxPerMM) (topHmm topRect pxPerMM)

/-- `const areaCM2 = (lengthMM * widthMM) / 100` (part_000 line 377). -/
noncomputable def areaCM2 (topRect : Rect) (pxPerMM : ℝ) : ℝ :=
  (lengthMM topRect pxPerMM * widthMM topRect pxPerMM) / 100

/-- `const heightMM = dist(sideHeightA, sideHeightB) / (sidePxPerMM || 1)`
(part_000 line 379). -/
noncomputable def heightMM (sideHeightA sideHeightB : Pt) (pxPerMM : ℝ) : ℝ :=
  dist sideHeightA sideHeightB / (if pxPerMM = 0 then 1 else pxPerMM)

end Ui

namespace Api

/-!
## HTTP handler (measure-parcel.ts, default export `handler`)
-/

/-- The `measurements` object of the request body. Each field is `some q`
when it is present with `typeof === 'number'`, and `none` when it is absent
or of any other type — the handler's validation distinguishes nothing
finer than that. -/
structure MeasurementsBody where
  length_mm : Option ℚ
  width_mm : Option ℚ
  height_mm : Option ℚ
deriving DecidableEq, Repr

/-- The part of `VercelRequest` the handler reads: the method string and
`req.body.measurements` (`none` models a falsy `measurements`). -/
structure Request where
  method : String
  measurements : Option MeasurementsBody
deriving DecidableEq, Repr

/-- The observable response: status code, the `success` flag when the JSON
body carries one, the `error` string when one is sent, and the
`lockerRecommendation` payload of the 200 response. -/
structure HttpResponse where
  status : ℕ
  success : Option Bool
  error : Option String
  lockerRecommendation : Option LockerRecommendation
deriving DecidableEq, Repr

/-- The handler's input validation (measure-parcel.ts lines 87-95):
`some (l, w, h)` exactly when `measurements` is truthy and all three
fields are numbers; `none` triggers the first 400 response. -/
def validMeasurements : Option MeasurementsBody → Option (ℚ × ℚ × ℚ)
  | none => none
  | some m =>
    match m.length_mm, m.width_mm, m.height_mm with
    | some l, some w, some h => some (l, w, h)
    | _, _, _ => none

/-- `handler` (measure-parcel.ts lines 69-131): OPTIONS preflight → 200,
other non-POST → 405, missing/non-numeric measurements → 400,
non-positive dimension → 400, otherwise 200 with the
`recommendLocker` result. -/
def handler (req : Request) : HttpResponse :=
  if req.method = "OPTIONS" then ⟨200, none, none, none⟩
  else if ¬ (req.method = "POST") then
    ⟨405, none, some ("Method not allowed"), none⟩
  else
    match validMeasurements req.measurements with
    | none =>
        ⟨400, some false,
          some ("Invalid measurements. Expected: \x7b length_mm: number, width_mm: number, height_mm: number \x7d"),
          none⟩
    | some (length_mm, width_mm, height_mm) =>
        if length_mm ≤ 0 ∨ width_mm ≤ 0 ∨ height_mm ≤ 0 then
          ⟨400, some false, some ("All dimensions must be positive numbers"), none⟩
        else
          ⟨200, some true, none, some (recommendLocker length_mm width_mm height_mm)⟩

end Api

end Parcel

namespace Parcel

/-!
## Theorems
-/

/-- The API locker engine as an explicit decision chain: footprint first,
then the three height tiers in ascending order, `TOO_TALL` last. -/
theorem Api.recommendLocker_apiChain (l w h : ℚ) :
    Api.recommendLocker l w h =
      if ¬ (min l w ≤ 385 ∧ max l w ≤ 500) then
        ⟨"TOO_LARGE", false, ⟨l, w, h⟩, ⟨385, 500, 110.2⟩⟩
      else if h ≤ 110.2 then ⟨"SMALL", true, ⟨l, w, h⟩, ⟨385, 500, 110.2⟩⟩
      else if h ≤ 222.2 then ⟨"MEDIUM", true, ⟨l, w, h⟩, ⟨385, 500, 222.2⟩⟩
      else if h ≤ 301 then ⟨"LARGE", true, ⟨l, w, h⟩, ⟨385, 500, 301⟩⟩
      else ⟨"TOO_TALL", false, ⟨l, w, h⟩, ⟨385, 500, 301⟩⟩ := by
  by_cases hf : min l w ≤ 385 ∧ max l w ≤ 500
  · by_cases h1 : h ≤ 110.2
    · simp [Api.recommendLocker, Api.LOCKER_SIZES_small, Api.LOCKER_SIZES_medium,
        Api.LOCKER_SIZES_large, List.find?, hf, h1]
    · by_cases h2 : h ≤ 222.2
      · simp [Api.recommendLocker, Api.LOCKER_SIZES_small, Api.LOCKER_SIZES_medium,
          Api.LOCKER_SIZES_large, List.find?, hf, h1, h2]
      · by_cases h3 : h ≤ 301
        · simp [Api.recommendLocker, Api.LOCKER_SIZES_small, Api.LOCKER_SIZES_medium,
            Api.LOCKER_SIZES_large, List.find?, hf, h1, h2, h3]
        · simp [Api.recommendLocker, Api.LOCKER_SIZES_small, Api.LOCKER_SIZES_medium,
            Api.LOCKER_SIZES_large, List.find?, hf, h1, h2, h3]
  · simp only [Api.recommendLocker, Api.LOCKER_SIZES_small, Api.LOCKER_SIZES_medium,
      Api.LOCKER_SIZES_large]
    rw [if_pos hf, if_pos hf]

/-- The UI locker engine as the same explicit decision chain. -/
theorem Ui.recommendLocker_uiChain (l w h : ℚ) :
    Ui.recommendLocker l w h =
      if ¬ (min l w ≤ 385 ∧ max l w ≤ 500) then
        ⟨"Too large for footprint", "#ff6b6b", none⟩
      else if h ≤ 110.2 then ⟨"SMALL", "#36d399", some Ui.LockerKey.small⟩
      else if h ≤ 222.2 then ⟨"MEDIUM", "#36d399", some Ui.LockerKey.medium⟩
      else if h ≤ 301 then ⟨"LARGE", "#36d399", some Ui.LockerKey.large⟩
      else ⟨"Height exceeds LARGE", "#ffb020", none⟩ := by
  by_cases hf : min l w ≤ 385 ∧ max l w ≤ 500
  · by_cases h1 : h ≤ 110.2
    · simp [Ui.recommendLocker, Ui.LOCKER_SIZES_small, Ui.LOCKER_SIZES_medium,
        Ui.LOCKER_SIZES_large, List.find?, hf, h1]
    · by_cases h2 : h ≤ 222.2
      · simp [Ui.recommendLocker, Ui.LOCKER_SIZES_small, Ui.LOCKER_SIZES_medium,
          Ui.LOCKER_SIZES_large, List.find?, hf, h1, h2]
      · by_cases h3 : h ≤ 301
        · simp [Ui.recommendLocker, Ui.LOCKER_SIZES_small, Ui.LOCKER_SIZES_medium,
            Ui.LOCKER_SIZES_large, List.find?, hf, h1, h2, h3]
        · simp [Ui.recommendLocker, Ui.LOCKER_SIZES_small, Ui.LOCKER_SIZES_medium,
            Ui.LOCKER_SIZES_large, List.find?, hf, h1, h2, h3]
  · simp only [Ui.recommendLocker, Ui.LOCKER_SIZES_small, Ui.LOCKER_SIZES_medium,
      Ui.LOCKER_SIZES_large]
    rw [if_pos hf, if_pos hf]

/-- C1: `recommendLocker` first checks the footprint with `a = min`,
`b = max`; if not `a ≤ 385 ∧ b ≤ 500` it returns `TOO_LARGE` with
`fits = false` regardless of the height; otherwise it returns the first of
SMALL (110.2) / MEDIUM (222.2) / LARGE (301) whose inclusive height limit
is at least `htMM`, with `fits = true`; above 301 it returns `TOO_TALL`
with `fits = false`. -/
theorem C1_recommendLocker_characterization (l w h : ℚ) :
    (¬ (min l w ≤ 385 ∧ max l w ≤ 500) →
      (Api.recommendLocker l w h).size = "TOO_LARGE" ∧
        (Api.recommendLocker l w h).fits = false)
  ∧ (min l w ≤ 385 ∧ max l w ≤ 500 →
      (h ≤ 110.2 →
        (Api.recommendLocker l w h).size = "SMALL" ∧
          (Api.recommendLocker l w h).fits = true)
    ∧ (¬ h ≤ 110.2 → h ≤ 222.2 →
        (Api.recommendLocker l w h).size = "MEDIUM" ∧
          (Api.recommendLocker l w h).fits = true)
    ∧ (¬ h ≤ 222.2 → h ≤ 301 →
        (Api.recommendLocker l w h).size = "LARGE" ∧
          (Api.recommendLocker l w h).fits = true)
    ∧ (¬ h ≤ 301 →
        (Api.recommendLocker l w h).size = "TOO_TALL" ∧
          (Api.recommendLocker l w h).fits = false)) := by
  refine ⟨fun hnf => ?_,
    fun hf => ⟨fun h1 => ?_, fun h1 h2 => ?_, fun h2 h3 => ?_, fun h3 => ?_⟩⟩
  · rw [Api.recommendLocker_apiChain, if_pos hnf]
    exact ⟨rfl, rfl⟩
  · rw [Api.recommendLocker_apiChain, if_neg (not_not_intro hf), if_pos h1]
    exact ⟨rfl, rfl⟩
  · rw [Api.recommendLocker_apiChain, if_neg (not_not_intro hf), if_neg h1, if_pos h2]
    exact ⟨rfl, rfl⟩
  · have h1 : ¬ h ≤ 110.2 := fun hle => h2 (hle.trans (by norm_num))
    rw [Api.recommendLocker_apiChain, if_neg (not_not_intro hf), if_neg h1, if_neg h2,
      if_pos h3]
    exact ⟨rfl, rfl⟩
  · have h2 : ¬ h ≤ 222.2 := fun hle => h3 (hle.trans (by norm_num))
    have h1 : ¬ h ≤ 110.2 := fun hle => h2 (hle.trans (by norm_num))
    rw [Api.recommendLocker_apiChain, if_neg (not_not_intro hf), if_neg h1, if_neg h2,
      if_neg h3]
    exact ⟨rfl, rfl⟩

/-- Witness for C1 at the concrete triple `(250, 180, 95.8)`: the footprint
fits and the height is within the SMALL tier. -/
theorem C1_witness :
    (min (250 : ℚ) 180 ≤ 385 ∧ max (250 : ℚ) 180 ≤ 500) ∧ (95.8 : ℚ) ≤ 110.2 ∧
    (Api.recommendLocker 250 180 95.8).size = "SMALL" ∧
      (Api.recommendLocker 250 180 95.8).fits = true := by
  have hf : min (250 : ℚ) 180 ≤ 385 ∧ max (250 : ℚ) 180 ≤ 500 := by
    constructor <;> norm_num [min_def, max_def]
  have h1 : (95.8 : ℚ) ≤ 110.2 := by norm_num
  exact ⟨hf, h1, ((C1_recommendLocker_characterization 250 180 95.8).2 hf).1 h1⟩

/-- C9: `recommendLocker` is symmetric in its first two arguments — the UI
copy returns an identical record under the swap, the API copy an identical
`size` and `fits` — and in particular `(500, 385, 50)` classifies as SMALL
because the rotated footprint `min = 385 ≤ 385`, `max = 500 ≤ 500` fits. -/
theorem C9_recommendLocker_symmetric (l w h : ℚ) :
    Ui.recommendLocker l w h = Ui.recommendLocker w l h
  ∧ (Api.recommendLocker l w h).size = (Api.recommendLocker w l h).size
  ∧ (Api.recommendLocker l w h).fits = (Api.recommendLocker w l h).fits
  ∧ (Ui.recommendLocker 500 385 50).label = "SMALL"
  ∧ (Api.recommendLocker 500 385 50).size = "SMALL" := by
  refine ⟨?_, ?_, ?_, ?_, ?_⟩
  · rw [Ui.recommendLocker_uiChain, Ui.recommendLocker_uiChain, min_comm w l, max_comm w l]
  · rw [Api.recommendLocker_apiChain, Api.recommendLocker_apiChain, min_comm w l, max_comm w l]
    split_ifs <;> rfl
  · rw [Api.recommendLocker_apiChain, Api.recommendLocker_apiChain, min_comm w l, max_comm w l]
    split_ifs <;> rfl
  · rw [Ui.recommendLocker_uiChain]
    norm_num [min_def, max_def]
  · rw [Api.recommendLocker_apiChain]
    norm_num [min_def, max_def]

/-- C10: the two independent `recommendLocker` copies classify every triple
identically — the API copy answers `TOO_LARGE` / SMALL / MEDIUM / LARGE /
`TOO_TALL` exactly when the UI copy answers the corresponding
footprint-too-large / tier / height-exceeds result. -/
theorem C10_api_ui_equivalence (l w h : ℚ) :
    ((Api.recommendLocker l w h).size = "TOO_LARGE" ↔
      (Ui.recommendLocker l w h).label = "Too large for footprint")
  ∧ ((Api.recommendLocker l w h).size = "SMALL" ↔
      (Ui.recommendLocker l w h).label = "SMALL")
  ∧ ((Api.recommendLocker l w h).size = "MEDIUM" ↔
      (Ui.recommendLocker l w h).label = "MEDIUM")
  ∧ ((Api.recommendLocker l w h).size = "LARGE" ↔
      (Ui.recommendLocker l w h).label = "LARGE")
  ∧ ((Api.recommendLocker l w h).size = "TOO_TALL" ↔
      (Ui.recommendLocker l w h).label = "Height exceeds LARGE")
  ∧ ((Api.recommendLocker l w h).fits = true ↔
      (Ui.recommendLocker l w h).sizeKey ≠ none) := by
  rw [Api.recommendLocker_apiChain, Ui.recommendLocker_uiChain]
  split_ifs <;> refine ⟨?_, ?_, ?_, ?_, ?_, ?_⟩ <;> simp

/-- C3 counterexample: an OPTIONS request is a request whose method is not
POST, yet the handler answers the CORS preflight with HTTP 200, not 405 as
the claim demands for every non-POST request. -/
theorem C3_counterexample :
    (Api.handler ⟨"OPTIONS", none⟩).status = 200 ∧
      ("OPTIONS" : String) ≠ "POST" := by
  exact ⟨rfl, by decide⟩

/-- C3 amended: OPTIONS answers 200; any method that is neither POST nor
OPTIONS answers 405; a POST whose measurements are missing or not all
numbers answers 400 with `success = false` and an error string; a POST with
a numeric but not strictly positive triple answers 400 likewise; a POST
with a strictly positive triple answers 200 with `success = true` and the
`recommendLocker` result for the same inputs. -/
theorem C3_handler_amended (req : Api.Request) :
    (req.method = "OPTIONS" → Api.handler req = ⟨200, none, none, none⟩)
  ∧ (req.method ≠ "OPTIONS" → req.method ≠ "POST" →
      Api.handler req = ⟨405, none, some ("Method not allowed"), none⟩)
  ∧ (req.method = "POST" → Api.validMeasurements req.measurements = none →
      (Api.handler req).status = 400 ∧ (Api.handler req).success = some false ∧
        (Api.handler req).error ≠ none)
  ∧ (∀ l w h : ℚ, req.method = "POST" →
      Api.validMeasurements req.measurements = some (l, w, h) →
      (l ≤ 0 ∨ w ≤ 0 ∨ h ≤ 0 →
        (Api.handler req).status = 400 ∧ (Api.handler req).success = some false ∧
          (Api.handler req).error ≠ none)
    ∧ (0 < l → 0 < w → 0 < h →
        Api.handler req =
          ⟨200, some true, none, some (Api.recommendLocker l w h)⟩)) := by
  refine ⟨fun hm => ?_, fun hno hnp => ?_, fun hm hv => ?_,
    fun l w h hm hv => ⟨fun hle => ?_, fun hl hw hh => ?_⟩⟩
  · simp [Api.handler, hm]
  · simp [Api.handler, hno, hnp]
  · simp [Api.handler, hm, hv]
  · simp [Api.handler, hm, hv, hle]
  · have hpos : ¬ (l ≤ 0 ∨ w ≤ 0 ∨ h ≤ 0) := by
      simp only [not_or, not_le]
      exact ⟨hl, hw, hh⟩
    simp [Api.handler, hm, hv, hpos]

/-- Witness for C3's amended claim: a valid positive POST gets 200 with the
pure `recommendLocker` result. -/
theorem C3_witness :
    Api.handler ⟨"POST", some ⟨some 250, some 180, some 95⟩⟩ =
      ⟨200, some true, none, some (Api.recommendLocker 250 180 95)⟩ := by
  exact ((C3_handler_amended ⟨"POST", some ⟨some 250, some 180, some 95⟩⟩).2.2.2
    250 180 95 rfl rfl).2 (by norm_num) (by norm_num) (by norm_num)

/-- C7: a corner drag rebuilds the rectangle from the opposite corner
(which stays fixed) and the dragged point via `min`/`max`, so width and
height stay non-negative for any dragged position, including positions past
the opposite corner. -/
theorem C7_setCorner_no_inversion (r : Rect) (ix iy : Bool) (p : Pt)
    (hw : 0 ≤ r.w) (hh : 0 ≤ r.h) :
    0 ≤ (setCorner r ix iy p).w ∧ 0 ≤ (setCorner r ix iy p).h
  ∧ (ix = false → (setCorner r ix iy p).x + (setCorner r ix iy p).w = r.x + r.w)
  ∧ (ix = true → (setCorner r ix iy p).x = r.x)
  ∧ (iy = false → (setCorner r ix iy p).y + (setCorner r ix iy p).h = r.y + r.h)
  ∧ (iy = true → (setCorner r ix iy p).y = r.y) := by
  cases ix <;> cases iy <;> simp [setCorner]

/-- Witness for C7 at a concrete drag of the top-right corner. -/
theorem C7_witness :
    (0 : ℚ) ≤ 10 ∧ 0 ≤ (setCorner ⟨0, 0, 10, 10⟩ true false ⟨20, 5⟩).w ∧
      0 ≤ (setCorner ⟨0, 0, 10, 10⟩ true false ⟨20, 5⟩).h := by
  have h := C7_setCorner_no_inversion ⟨0, 0, 10, 10⟩ true false ⟨20, 5⟩
    (by norm_num) (by norm_num)
  exact ⟨by norm_num, h.1, h.2.1⟩

/-- C2 counterexample: dragging the top-left corner of the rectangle
`(0, 0, 10, 10)` to the point `(-5, -5)` produces a rectangle with `x < 0`
and `y < 0`, outside `[0, imageWidth] × [0, imageHeight]` for any image —
corner edits are not clamped into bounds. -/
theorem C2_counterexample :
    (setCorner ⟨0, 0, 10, 10⟩ false false ⟨-5, -5⟩).x < 0 ∧
      (setCorner ⟨0, 0, 10, 10⟩ false false ⟨-5, -5⟩).y < 0 := by
  norm_num [setCorner, min_def]

/-- C2 amended: after a corner drag the rectangle satisfies `w ≥ 0` and
`h ≥ 0` but is not clamped to the image; only a body drag (with the
`bounds` prop set) clamps the position, into
`[0, max 0 (imageWidth - w)] × [0, max 0 (imageHeight - h)]`, leaving the
size unchanged. -/
theorem C2_edit_invariants (r : Rect) (ix iy : Bool) (p ro d pt : Pt)
    (b : ImgSize) :
    (0 ≤ (setCorner r ix iy p).w ∧ 0 ≤ (setCorner r ix iy p).h)
  ∧ ((onBodyMove ro d pt r.w r.h (some b)).w = r.w
    ∧ (onBodyMove ro d pt r.w r.h (some b)).h = r.h
    ∧ 0 ≤ (onBodyMove ro d pt r.w r.h (some b)).x
    ∧ (onBodyMove ro d pt r.w r.h (some b)).x ≤ max 0 (b.w - r.w)
    ∧ 0 ≤ (onBodyMove ro d pt r.w r.h (some b)).y
    ∧ (onBodyMove ro d pt r.w r.h (some b)).y ≤ max 0 (b.h - r.h)) := by
  constructor
  · cases ix <;> cases iy <;> simp [setCorner]
  · simp only [onBodyMove, clamp]
    refine ⟨trivial, trivial, le_max_left _ _, ?_, le_max_left _ _, ?_⟩
    · exact max_le (le_max_left 0 _) (min_le_left _ _)
    · exact max_le (le_max_left 0 _) (min_le_left _ _)

/-- C8 counterexample: with a 100 × 100 image and a rectangle of width 150,
the body drag clamps the position to `x = 0`, which is not in the claimed
interval `[0, imageWidth - w] = [0, -50]`. -/
theorem C8_counterexample :
    (onBodyMove ⟨0, 0⟩ ⟨0, 0⟩ ⟨5, 0⟩ 150 10 (some ⟨100, 100⟩)).x = 0 ∧
      ¬ ((onBodyMove ⟨0, 0⟩ ⟨0, 0⟩ ⟨5, 0⟩ 150 10 (some ⟨100, 100⟩)).x ≤
          (100 : ℚ) - 150) := by
  norm_num [onBodyMove, clamp, min_def, max_def]

/-- C8 amended: a body drag leaves `w` and `h` unchanged and clamps the
position component-wise into `[0, max 0 (imageWidth - w)]` and
`[0, max 0 (imageHeight - h)]` for every pointer delta; whenever the
rectangle fits the image (`w ≤ imageWidth`, `h ≤ imageHeight`) this is the
claimed interval `[0, imageWidth - w] × [0, imageHeight - h]`. -/
theorem C8_onBodyMove_clamped (ro d pt : Pt) (w h : ℚ) (b : ImgSize) :
    (onBodyMove ro d pt w h (some b)).w = w
  ∧ (onBodyMove ro d pt w h (some b)).h = h
  ∧ 0 ≤ (onBodyMove ro d pt w h (some b)).x
  ∧ (onBodyMove ro d pt w h (some b)).x ≤ max 0 (b.w - w)
  ∧ 0 ≤ (onBodyMove ro d pt w h (some b)).y
  ∧ (onBodyMove ro d pt w h (some b)).y ≤ max 0 (b.h - h)
  ∧ (w ≤ b.w → (onBodyMove ro d pt w h (some b)).x ≤ b.w - w)
  ∧ (h ≤ b.h → (onBodyMove ro d pt w h (some b)).y ≤ b.h - h) := by
  simp only [onBodyMove, clamp]
  refine ⟨trivial, trivial, le_max_left _ _,
    max_le (le_max_left 0 _) (min_le_left _ _), le_max_left _ _,
    max_le (le_max_left 0 _) (min_le_left _ _), fun hwb => ?_, fun hhb => ?_⟩
  · calc max 0 (min (max 0 (b.w - w)) (ro.x + (pt.x - d.x)))
        ≤ max 0 (b.w - w) := max_le (le_max_left 0 _) (min_le_left _ _)
      _ = b.w - w := max_eq_right (sub_nonneg.mpr hwb)
  · calc max 0 (min (max 0 (b.h - h)) (ro.y + (pt.y - d.y)))
        ≤ max 0 (b.h - h) := max_le (le_max_left 0 _) (min_le_left _ _)
      _ = b.h - h := max_eq_right (sub_nonneg.mpr hhb)

/-- Witness for C8's amended claim with a rectangle that fits the image. -/
theorem C8_witness :
    (10 : ℚ) ≤ 100 ∧
      (onBodyMove ⟨0, 0⟩ ⟨0, 0⟩ ⟨500, 500⟩ 10 10 (some ⟨100, 100⟩)).x ≤
        (100 : ℚ) - 10 := by
  exact ⟨by norm_num,
    (C8_onBodyMove_clamped ⟨0, 0⟩ ⟨0, 0⟩ ⟨500, 500⟩ 10 10
      ⟨100, 100⟩).2.2.2.2.2.2.1 (by norm_num)⟩

/-- C4: the scale resolver returns `distance / referenceLengthMM` with a
positive result when the pixel distance and the reference length are both
positive, and `0` when the pixel distance is `0` (in particular when
`a = b`) or when the reference length is non-positive. -/
theorem C4_topPxPerMM_spec (a b : Pt) (ref : ℚ) :
    (0 < dist a b → 0 < ref →
      Ui.topPxPerMM a b ref = dist a b / (ref : ℝ) ∧
        0 < Ui.topPxPerMM a b ref)
  ∧ (a = b → Ui.topPxPerMM a b ref = 0)
  ∧ (dist a b = 0 → Ui.topPxPerMM a b ref = 0)
  ∧ (ref ≤ 0 → Ui.topPxPerMM a b ref = 0) := by
  refine ⟨fun hd hr => ?_, fun hab => ?_, fun hd => ?_, fun hr => ?_⟩
  · simp only [Ui.topPxPerMM, if_pos (And.intro hd hr)]
    exact ⟨trivial, div_pos hd (by exact_mod_cast hr)⟩
  · subst hab
    have hd : dist a a = 0 := by simp [dist]
    simp [Ui.topPxPerMM, hd]
  · simp [Ui.topPxPerMM, hd]
  · have hnr : ¬ 0 < ref := not_lt.mpr hr
    simp [Ui.topPxPerMM, hnr]

/-- Witness for C4 at the points `(0,0)`, `(3,4)` with a 5 mm reference:
the pixel distance is positive and the scale is `dist / 5 > 0`. -/
theorem C4_witness :
    0 < dist ⟨0, 0⟩ ⟨3, 4⟩ ∧ 0 < (5 : ℚ) ∧
      Ui.topPxPerMM ⟨0, 0⟩ ⟨3, 4⟩ 5 = dist ⟨0, 0⟩ ⟨3, 4⟩ / ((5 : ℚ) : ℝ) ∧
        0 < Ui.topPxPerMM ⟨0, 0⟩ ⟨3, 4⟩ 5 := by
  have hd : 0 < dist (⟨0, 0⟩ : Pt) ⟨3, 4⟩ := by
    simp only [dist]
    apply Real.sqrt_pos.mpr
    push_cast
    norm_num
  exact ⟨hd, by norm_num, (C4_topPxPerMM_spec ⟨0, 0⟩ ⟨3, 4⟩ 5).1 hd (by norm_num)⟩

/-- C5: for every rectangle and positive scale, the extracted top face has
`lengthMM ≥ widthMM` (the two converted extents are sorted), and the area
is `lengthMM * widthMM / 100`, which equals the product of the two raw
converted extents divided by 100. -/
theorem C5_topFace_sorted_area (r : Rect) (s : ℝ) (hs : 0 < s) :
    Ui.widthMM r s ≤ Ui.lengthMM r s
  ∧ Ui.areaCM2 r s = Ui.lengthMM r s * Ui.widthMM r s / 100
  ∧ Ui.areaCM2 r s = Ui.topWmm r s * Ui.topHmm r s / 100 := by
  refine ⟨min_le_max, rfl, ?_⟩
  simp only [Ui.areaCM2, Ui.lengthMM, Ui.widthMM]
  rcases le_total (Ui.topWmm r s) (Ui.topHmm r s) with hle | hle
  · rw [max_eq_right hle, min_eq_left hle, mul_comm]
  · rw [max_eq_left hle, min_eq_right hle]

/-- Witness for C5 at a concrete rectangle and unit scale. -/
theorem C5_witness :
    (0 : ℝ) < 1 ∧ Ui.widthMM ⟨0, 0, 3, 4⟩ 1 ≤ Ui.lengthMM ⟨0, 0, 3, 4⟩ 1 ∧
      Ui.areaCM2 ⟨0, 0, 3, 4⟩ 1 =
        Ui.lengthMM ⟨0, 0, 3, 4⟩ 1 * Ui.widthMM ⟨0, 0, 3, 4⟩ 1 / 100 := by
  have h := C5_topFace_sorted_area ⟨0, 0, 3, 4⟩ 1 one_pos
  exact ⟨one_pos, h.1, h.2.1⟩

/-- C6: with an uncalibrated (zero) scale, top-face extraction divides the
pixel extents by 1, returning the raw pixel counts, and height extraction
returns the raw pixel distance — total functions with no error path. -/
theorem C6_zero_scale_raw_pixels (r : Rect) (a b : Pt) :
    Ui.topWmm r 0 = (r.w : ℝ) ∧ Ui.topHmm r 0 = (r.h : ℝ) ∧
      Ui.heightMM a b 0 = dist a b := by
  simp [Ui.topWmm, Ui.topHmm, Ui.heightMM]

end Parcel

example : (Parcel.Api.recommendLocker 250 180 95.8).size = "SMALL" := by
  norm_num [Parcel.Api.recommendLocker, Parcel.Api.LOCKER_SIZES_small,
    Parcel.Api.LOCKER_SIZES_medium, Parcel.Api.LOCKER_SIZES_large,
    List.find?, min_def, max_def]
example : (Parcel.Api.recommendLocker 250 180 110.3).size = "MEDIUM" := by
  norm_num [Parcel.Api.recommendLocker, Parcel.Api.LOCKER_SIZES_small,
    Parcel.Api.LOCKER_SIZES_medium, Parcel.Api.LOCKER_SIZES_large,
    List.find?, min_def, max_def]
example : (Parcel.Api.recommendLocker 250 180 301.1).size = "TOO_TALL" := by
  norm_num [Parcel.Api.recommendLocker, Parcel.Api.LOCKER_SIZES_small,
    Parcel.Api.LOCKER_SIZES_medium, Parcel.Api.LOCKER_SIZES_large,
    List.find?, min_def, max_def]
example : (Parcel.Api.recommendLocker 500 385 50).size = "SMALL" := by
  norm_num [Parcel.Api.recommendLocker, Parcel.Api.LOCKER_SIZES_small,
    Parcel.Api.LOCKER_SIZES_medium, Parcel.Api.LOCKER_SIZES_large,
    List.find?, min_def, max_def]
example : (Parcel.Ui.recommendLocker 500 385 50).label = "SMALL" := by
  norm_num [Parcel.Ui.recommendLocker, Parcel.Ui.LOCKER_SIZES_small,
    Parcel.Ui.LOCKER_SIZES_medium, Parcel.Ui.LOCKER_SIZES_large,
    List.find?, min_def, max_def]
